import Mathlib

/-!
Verification of the CogniFlow client-side adapter and metrics layer
(`src/ui/src/components/KPICards.tsx`, services section).

JavaScript numbers are modelled as rationals (`ℚ`); the integer results of
`Math.round` are modelled as `ℤ`.  Optional TS fields (`x?: T`,
`T | null | undefined`) are modelled as `Option`; a JSON body field set to
`undefined` is serialized as absent, which `Option.none` captures.
Fallible calls return `Except String`.
-/

/-- JS `Math.round`: rounds half toward positive infinity, i.e. `⌊x + 1/2⌋`
(written with the executable `Rat.floor`). -/
def jsRound (q : ℚ) : ℤ := (q + 1/2).floor

/-- JS `String.prototype.trim`: strip leading and trailing whitespace, on the
string's character list, with `Char.isWhitespace` standing for the JS
WhiteSpace/LineTerminator set. -/
def jsTrim (s : String) : String :=
  ⟨((s.data.dropWhile Char.isWhitespace).reverse.dropWhile Char.isWhitespace).reverse⟩

/-- From `inferIntensity` in the source: `>= 80` is High, `>= 60` Medium, else Low. -/
def inferIntensity (confidencePercent : ℚ) : String :=
  if confidencePercent ≥ 80 then "High"
  else if confidencePercent ≥ 60 then "Medium"
  else "Low"

/-- One entry of the synthesized emotion breakdown (`{ name, value, color }`). -/
structure EmotionSlice where
  name : String
  value : ℤ
  color : String
deriving Repr, DecidableEq

/-- From `buildEmotionBreakdown` in the source.  `dominant` is an integer in
`[20, 95]`, so `100 - dominant ∈ [5, 80]` and the double multiplication by the
float literal `0.6` is exact at rational `3/5` on this whole range (the exact
products are multiples of `1/5`, never within float error of a rounding
boundary). -/
def buildEmotionBreakdown (dominantMood : String) (confidencePercent : ℚ) :
    List EmotionSlice :=
  let dominant : ℤ := max 20 (min 95 (jsRound confidencePercent))
  let secondary : ℤ := max 5 (jsRound (((100 - dominant : ℤ) : ℚ) * (3/5)))
  let tertiary : ℤ := max 5 (100 - dominant - secondary)
  [ { name := dominantMood, value := dominant, color := "#3b82f6" },
    { name := "Secondary", value := secondary, color := "#8b5cf6" },
    { name := "Residual", value := tertiary, color := "#22c55e" } ]

/-- One entry of an audio `emotional_arc` (`{ start, end, mood }`; the TS field
`end` is renamed `endTime`, `end` being a Lean keyword). -/
structure ArcEntry where
  start : ℚ
  endTime : ℚ
  mood : String
deriving Repr, DecidableEq

/-- The `moodToValue` record from `mapAudioArcToIntensitySeries`, as the
association list of its own properties. -/
def moodToValue : List (String × ℤ) :=
  [("intense", 95), ("energetic", 85), ("dramatic", 80),
   ("dark", 70), ("calm", 40), ("neutral", 50)]

/-- One element of the mapped intensity series.  The TS annotation says
`number[]`, but the bracket lookup below can leak a non-number (an inherited
`Object.prototype` member), so the element domain is the sum of both. -/
inductive ArcSample
  | score (z : ℤ)
  | inherited (name : String)
deriving Repr, DecidableEq

/-- Own-property names of `Object.prototype` in a standard JS realm.  A
bracket read on an object literal finds these by prototype inheritance when
the key is not an own property, and none of their values is nullish. -/
def objectPrototypeMembers : List String :=
  ["constructor", "hasOwnProperty", "isPrototypeOf", "propertyIsEnumerable",
   "toLocaleString", "toString", "valueOf", "__defineGetter__",
   "__defineSetter__", "__lookupGetter__", "__lookupSetter__", "__proto__"]

/-- JS `moodToValue[m] ?? 50`: an own property wins; otherwise a key naming an
`Object.prototype` member yields that inherited member, which is not nullish,
so `?? 50` keeps it; only the remaining keys read `undefined` and default to
50. -/
def moodLookupDefault (m : String) : ArcSample :=
  match moodToValue.lookup m with
  | some v => ArcSample.score v
  | none =>
    if m ∈ objectPrototypeMembers then ArcSample.inherited m
    else ArcSample.score 50

/-- From `mapAudioArcToIntensitySeries` in the source:
`arc.map((entry) => moodToValue[entry.mood] ?? 50)`. -/
def mapAudioArcToIntensitySeries (arc : List ArcEntry) : List ArcSample :=
  arc.map (fun entry => moodLookupDefault entry.mood)

/-- Modelled from the spec: the mood-score table of §4.2 written as a direct
case analysis (intense 95, energetic 85, dramatic 80, dark 70, calm 40,
neutral 50, anything else 50), to compare with the lookup the source uses. -/
def specMoodScore (m : String) : ℤ :=
  if m = "intense" then 95
  else if m = "energetic" then 85
  else if m = "dramatic" then 80
  else if m = "dark" then 70
  else if m = "calm" then 40
  else if m = "neutral" then 50
  else 50

/-- The durable metrics record (`StoredMetrics` in the source).  The counters
start at 0 and are only ever incremented, so they are modelled as naturals;
the confidence sum accumulates rounded percentages, modelled as an integer. -/
structure StoredMetrics where
  totalConversations : ℕ
  videosProcessed : ℕ
  analyzedCount : ℕ
  analyzedConfidenceSum : ℤ
deriving Repr, DecidableEq

/-- The all-zero record `readMetrics` falls back to. -/
def emptyStoredMetrics : StoredMetrics :=
  { totalConversations := 0, videosProcessed := 0,
    analyzedCount := 0, analyzedConfidenceSum := 0 }

/-- From `incrementConversation` in the source. -/
def incrementConversation (m : StoredMetrics) : StoredMetrics :=
  { m with totalConversations := m.totalConversations + 1 }

/-- From `incrementVideos` in the source. -/
def incrementVideos (m : StoredMetrics) : StoredMetrics :=
  { m with videosProcessed := m.videosProcessed + 1 }

/-- From `addAnalysisConfidence` in the source. -/
def addAnalysisConfidence (confidencePercent : ℤ) (m : StoredMetrics) :
    StoredMetrics :=
  { m with analyzedCount := m.analyzedCount + 1,
           analyzedConfidenceSum := m.analyzedConfidenceSum + confidencePercent }

/-- The derived dashboard view (`DashboardMetrics` in the source). -/
structure DashboardMetrics where
  totalConversations : ℕ
  videosProcessed : ℕ
  aiAccuracyScore : ℚ
deriving Repr, DecidableEq

/-- From `getDashboardMetrics` in the source, on a well-shaped record: the
accuracy score is `analyzedConfidenceSum / analyzedCount` when
`analyzedCount` is truthy (nonzero) and 0 otherwise. -/
def getDashboardMetrics (m : StoredMetrics) : DashboardMetrics :=
  { totalConversations := m.totalConversations,
    videosProcessed := m.videosProcessed,
    aiAccuracyScore :=
      if m.analyzedCount ≠ 0 then
        (m.analyzedConfidenceSum : ℚ) / (m.analyzedCount : ℚ)
      else 0 }

/-- TS `ChatMode = 'general' | 'pdf'` (the spec calls `pdf` "contextual"). -/
inductive ChatMode
  | general
  | pdf
deriving Repr, DecidableEq

/-- TS `ResponseMode = 'strict' | 'solve'`. -/
inductive ResponseMode
  | strict
  | solve
deriving Repr, DecidableEq

/-- TS `ChatProvider = 'local' | 'external'` (`local` is a Lean keyword, hence
the guillemets). -/
inductive ChatProvider
  | «local»
  | external
deriving Repr, DecidableEq

/-- From `normalizeProvider` in the source: `external` becomes the backend
string "api", anything else "local". -/
def normalizeProvider : ChatProvider → String
  | ChatProvider.external => "api"
  | ChatProvider.«local» => "local"

/-- TS `ChatPayload`. -/
structure ChatPayload where
  question : String
  mode : ChatMode
  response_mode : ResponseMode
  provider : ChatProvider
  api_key : Option String
deriving Repr, DecidableEq

/-- TS `ChatResponse`. -/
structure ChatResponse where
  response : String
deriving Repr, DecidableEq

/-- TS `BackendChatRequest`: the JSON body posted to `/chat`. -/
structure BackendChatRequest where
  message : String
  llm_type : String
  api_key : Option String
deriving Repr, DecidableEq

/-- TS `BackendRagRequest`: the JSON body posted to `/rag-query`. -/
structure BackendRagRequest where
  question : String
  mode : ResponseMode
  llm_type : String
  api_key : Option String
deriving Repr, DecidableEq

/-- One point of a script/PDF `emotional_arc` (typed `any[]` in TS; the code
only reads its optional `confidence` field). -/
structure ScriptArcPoint where
  confidence : Option ℚ
deriving Repr, DecidableEq

/-- TS `ScriptAnalysisResponse`. -/
structure ScriptAnalysisResponse where
  emotion_label : String
  dominant_mood : String
  confidence : ℚ
  emotional_arc : List ScriptArcPoint
  emotion_summary : String
deriving Repr, DecidableEq

/-- TS `PdfAnalysisResponse extends ScriptAnalysisResponse`. -/
structure PdfAnalysisResponse extends ScriptAnalysisResponse where
  script_preview : Option String
deriving Repr, DecidableEq

/-- The `audio_emotion` / `script_emotion` component of a video response. -/
structure AudioEmotion where
  dominant_mood : String
  emotional_arc : List ArcEntry
deriving Repr, DecidableEq

/-- TS `VideoUploadResponse`. -/
structure VideoUploadResponse where
  language_detected : String
  confidence : Option ℚ
  transcript_preview : String
  audio_emotion : AudioEmotion
  script_emotion : AudioEmotion
deriving Repr, DecidableEq

/-- An uploaded file; only its text content is observable to the adapter. -/
structure FileData where
  text : String
deriving Repr, DecidableEq

/-- A network request issued through the HTTP transport, with the request body
where a claim depends on it. -/
inductive NetCall
  | chat (body : BackendChatRequest)
  | ragQuery (body : BackendRagRequest)
  | uploadPdf
  | scriptAnalyze (text : String)
  | videoUpload
  | pdfUpload
  | youtube (url : String)
deriving Repr, DecidableEq

/-- The credential carried by a request body, if any. -/
def NetCall.credential : NetCall → Option String
  | NetCall.chat body => body.api_key
  | NetCall.ragQuery body => body.api_key
  | _ => none

/-- The backend as an oracle: what each endpoint would answer if called. -/
structure Transport where
  chat : Except String ChatResponse
  ragQuery : Except String String
  uploadPdf : Except String Unit
  scriptAnalyze : Except String ScriptAnalysisResponse
  videoUpload : Except String VideoUploadResponse
  pdfUpload : Except String PdfAnalysisResponse
  youtube : Except String VideoUploadResponse

/-- Observable outcome of an adapter operation: the network calls issued in
order, the returned value or thrown error, and the final metrics record. -/
structure Effect (α : Type) where
  calls : List NetCall
  result : Except String α
  metrics : StoredMetrics

/-- From `sendChat` in the source: `pdf` mode posts a RAG body to `/rag-query`,
otherwise a chat body to `/chat`; on success `incrementConversation` runs; on
failure the error propagates and the metrics are untouched.  In both branches
the body's `api_key` is `payload.api_key`, whatever the provider. -/
def sendChat (payload : ChatPayload) (t : Transport) (m : StoredMetrics) :
    Effect ChatResponse :=
  match payload.mode with
  | ChatMode.pdf =>
    let ragRequest : BackendRagRequest :=
      { question := payload.question, mode := payload.response_mode,
        llm_type := normalizeProvider payload.provider,
        api_key := payload.api_key }
    match t.ragQuery with
    | Except.error e =>
      { calls := [NetCall.ragQuery ragRequest], result := Except.error e, metrics := m }
    | Except.ok answer =>
      { calls := [NetCall.ragQuery ragRequest],
        result := Except.ok { response := answer },
        metrics := incrementConversation m }
  | ChatMode.general =>
    let chatRequest : BackendChatRequest :=
      { message := payload.question,
        llm_type := normalizeProvider payload.provider,
        api_key := payload.api_key }
    match t.chat with
    | Except.error e =>
      { calls := [NetCall.chat chatRequest], result := Except.error e, metrics := m }
    | Except.ok data =>
      { calls := [NetCall.chat chatRequest], result := Except.ok data,
        metrics := incrementConversation m }

/-- Input of `chatbotApi.sendMessage`. -/
structure ChatbotInput where
  message : String
  mode : ChatMode
  responseMode : ResponseMode
  provider : ChatProvider
  apiKey : Option String
  pdfContext : Option FileData
deriving Repr, DecidableEq

/-- From `chatbotApi.sendMessage` in the source: in `pdf` mode with an attached
context document, `/upload-pdf` runs first and its failure aborts everything;
then the payload is handed to `sendChat`. -/
def chatbotSendMessage (input : ChatbotInput) (t : Transport)
    (m : StoredMetrics) : Effect ChatResponse :=
  let payload : ChatPayload :=
    { question := input.message, mode := input.mode,
      response_mode := input.responseMode, provider := input.provider,
      api_key := input.apiKey }
  match input.mode, input.pdfContext with
  | ChatMode.pdf, some _ =>
    match t.uploadPdf with
    | Except.error e =>
      { calls := [NetCall.uploadPdf], result := Except.error e, metrics := m }
    | Except.ok _ =>
      let r := sendChat payload t m
      { calls := NetCall.uploadPdf :: r.calls, result := r.result, metrics := r.metrics }
  | _, _ => sendChat payload t m

/-- From `handleSendMessage` in `ChatbotSection.tsx`: the UI builds the input
for `chatbotApi.sendMessage`, passing the stored key only when the selected
provider is `external` (`apiKey: llmProvider === 'external' ? apiKey :
undefined`). -/
def handleSendMessagePayload (inputText : String) (chatMode : ChatMode)
    (responseMode : ResponseMode) (llmProvider : ChatProvider) (apiKey : String)
    (pdfFile : Option FileData) : ChatbotInput :=
  { message := inputText, mode := chatMode, responseMode := responseMode,
    provider := llmProvider,
    apiKey :=
      match llmProvider with
      | ChatProvider.external => some apiKey
      | ChatProvider.«local» => none,
    pdfContext := pdfFile }

/-- The normalized analysis result (`AnalysisResult` of the spec). -/
structure AnalysisResult where
  dominantMood : String
  intensity : String
  confidence : ℤ
  emotionalArc : List ArcSample
  emotions : List EmotionSlice
deriving Repr, DecidableEq

/-- The `type` argument of `emotionApi.analyze`: `'video' | 'script' | 'pdf'`. -/
inductive AnalyzeType
  | video
  | script
  | pdf
deriving Repr, DecidableEq

/-- From `emotionApi.analyze` in the source.  Video: upload, then
`incrementVideos` and `addAnalysisConfidence`.  Pdf: upload, then
`addAnalysisConfidence` only.  Script: read the file text locally, throw
`"Script file is empty."` before any network call when the trimmed text is
empty, otherwise post it to `/script/analyze` and `addAnalysisConfidence`.
Transport failures propagate with the metrics untouched. -/
def emotionApi.analyze (file : FileData) (type : AnalyzeType) (t : Transport)
    (m : StoredMetrics) : Effect AnalysisResult :=
  match type with
  | AnalyzeType.video =>
    match t.videoUpload with
    | Except.error e =>
      { calls := [NetCall.videoUpload], result := Except.error e, metrics := m }
    | Except.ok data =>
      let confidence : ℤ := jsRound ((data.confidence.getD 0) * 100)
      { calls := [NetCall.videoUpload],
        result := Except.ok
          { dominantMood := data.audio_emotion.dominant_mood,
            intensity := inferIntensity (confidence : ℚ),
            confidence := confidence,
            emotionalArc := mapAudioArcToIntensitySeries data.audio_emotion.emotional_arc,
            emotions := buildEmotionBreakdown data.audio_emotion.dominant_mood (confidence : ℚ) },
        metrics := addAnalysisConfidence confidence (incrementVideos m) }
  | AnalyzeType.pdf =>
    match t.pdfUpload with
    | Except.error e =>
      { calls := [NetCall.pdfUpload], result := Except.error e, metrics := m }
    | Except.ok data =>
      let confidence : ℤ := jsRound (data.confidence * 100)
      { calls := [NetCall.pdfUpload],
        result := Except.ok
          { dominantMood := data.dominant_mood,
            intensity := inferIntensity (confidence : ℚ),
            confidence := confidence,
            emotionalArc := data.emotional_arc.map
              (fun point => ArcSample.score (jsRound ((point.confidence.getD 0) * 100))),
            emotions := buildEmotionBreakdown data.dominant_mood (confidence : ℚ) },
        metrics := addAnalysisConfidence confidence m }
  | AnalyzeType.script =>
    let scriptText := file.text
    if jsTrim scriptText = "" then
      { calls := [], result := Except.error "Script file is empty.", metrics := m }
    else
      match t.scriptAnalyze with
      | Except.error e =>
        { calls := [NetCall.scriptAnalyze scriptText], result := Except.error e, metrics := m }
      | Except.ok data =>
        let confidence : ℤ := jsRound (data.confidence * 100)
        { calls := [NetCall.scriptAnalyze scriptText],
          result := Except.ok
            { dominantMood := data.dominant_mood,
              intensity := inferIntensity (confidence : ℚ),
              confidence := confidence,
              emotionalArc := data.emotional_arc.map
                (fun point => ArcSample.score (jsRound ((point.confidence.getD 0) * 100))),
              emotions := buildEmotionBreakdown data.dominant_mood (confidence : ℚ) },
          metrics := addAnalysisConfidence confidence m }

/-- From `emotionApi.analyzeYouTube` in the source: same normalization as the
video branch, against `/video/youtube`. -/
def emotionApi.analyzeYouTube (url : String) (t : Transport)
    (m : StoredMetrics) : Effect AnalysisResult :=
  match t.youtube with
  | Except.error e =>
    { calls := [NetCall.youtube url], result := Except.error e, metrics := m }
  | Except.ok data =>
    let confidence : ℤ := jsRound ((data.confidence.getD 0) * 100)
    { calls := [NetCall.youtube url],
      result := Except.ok
        { dominantMood := data.audio_emotion.dominant_mood,
          intensity := inferIntensity (confidence : ℚ),
          confidence := confidence,
          emotionalArc := mapAudioArcToIntensitySeries data.audio_emotion.emotional_arc,
          emotions := buildEmotionBreakdown data.audio_emotion.dominant_mood (confidence : ℚ) },
      metrics := addAnalysisConfidence confidence (incrementVideos m) }

/-- The spec's `AnalysisRequest` tagged union over the four input kinds. -/
inductive AnalysisRequest
  | video (file : FileData)
  | script (file : FileData)
  | pdf (file : FileData)
  | youtubeLink (url : String)
deriving Repr, DecidableEq

/-- Whether a request kind counts as a video for the `videosProcessed` metric. -/
def AnalysisRequest.isVideoKind : AnalysisRequest → Bool
  | AnalysisRequest.video _ => true
  | AnalysisRequest.youtubeLink _ => true
  | _ => false

/-- Dispatch of the spec's `analyze(request)` onto the two source entry points
(`emotionApi.analyze` for file kinds, `emotionApi.analyzeYouTube` for links). -/
def runAnalysis : AnalysisRequest → Transport → StoredMetrics → Effect AnalysisResult
  | AnalysisRequest.video f, t, m => emotionApi.analyze f AnalyzeType.video t m
  | AnalysisRequest.script f, t, m => emotionApi.analyze f AnalyzeType.script t m
  | AnalysisRequest.pdf f, t, m => emotionApi.analyze f AnalyzeType.pdf t m
  | AnalysisRequest.youtubeLink u, t, m => emotionApi.analyzeYouTube u t m

/-- A dynamically typed JS value, as far as the metrics read path observes
one.  Results of arithmetic on non-numeric operands are abstracted to `nan`. -/
inductive JSValue
  | null
  | undef
  | nan
  | boolean (b : Bool)
  | number (q : ℚ)
  | string (s : String)
  | obj (fields : List (String × JSValue))

/-- JS property access `v.k`: throws a TypeError on `null` or `undefined`,
yields the own property (or `undefined`) on an object, and `undefined` on the
remaining primitives, none of which has the metrics fields as properties. -/
def jsGet (v : JSValue) (k : String) : Except String JSValue :=
  match v with
  | JSValue.null => Except.error "TypeError: cannot read properties of null"
  | JSValue.undef => Except.error "TypeError: cannot read properties of undefined"
  | JSValue.obj fields => Except.ok ((fields.lookup k).getD JSValue.undef)
  | _ => Except.ok JSValue.undef

/-- JS truthiness: `null`, `undefined`, `NaN`, `0` and `""` are falsy. -/
def jsTruthy : JSValue → Bool
  | JSValue.null => false
  | JSValue.undef => false
  | JSValue.nan => false
  | JSValue.boolean b => b
  | JSValue.number q => decide (q ≠ 0)
  | JSValue.string s => decide (s ≠ "")
  | JSValue.obj _ => true

/-- JS division as the metrics path can reach it: a number divided by a
nonzero number is exact rational division; any other combination (a
non-numeric operand, or a zero divisor, which real JS sends to NaN or
infinity) is abstracted to `nan`. -/
def jsDiv : JSValue → JSValue → JSValue
  | JSValue.number a, JSValue.number b =>
    if b = 0 then JSValue.nan else JSValue.number (a / b)
  | _, _ => JSValue.nan

/-- What the durable metrics slot holds, as seen through `JSON.parse`: the key
is absent (`getItem` returned null), the text fails to parse (`JSON.parse`
throws, and `readMetrics` catches), or the text parses to some value, which
the source casts to `StoredMetrics` without any shape check. -/
inductive RawCell
  | missing
  | unparseable
  | parsed (v : JSValue)

/-- The zero record `readMetrics` builds, as the JS object literal. -/
def zeroRecordJS : JSValue :=
  JSValue.obj
    [("totalConversations", JSValue.number 0),
     ("videosProcessed", JSValue.number 0),
     ("analyzedCount", JSValue.number 0),
     ("analyzedConfidenceSum", JSValue.number 0)]

/-- From `readMetrics` in the source: a missing key and unparseable text fall
back to zeros inside the try/catch; a parsed value is returned as is. -/
def readMetrics : RawCell → JSValue
  | RawCell.missing => zeroRecordJS
  | RawCell.unparseable => zeroRecordJS
  | RawCell.parsed v => v

/-- The dashboard view with dynamically typed fields. -/
structure DashboardMetricsJS where
  totalConversations : JSValue
  videosProcessed : JSValue
  aiAccuracyScore : JSValue

/-- From `getDashboardMetrics` in the source, run over dynamic values in JS
evaluation order: read the record, evaluate
`metrics.analyzedCount ? metrics.analyzedConfidenceSum / metrics.analyzedCount : 0`,
then build the view object; every property access may throw. -/
def getDashboardMetricsJS (cell : RawCell) : Except String DashboardMetricsJS := do
  let metrics := readMetrics cell
  let cnt ← jsGet metrics "analyzedCount"
  let score ←
    if jsTruthy cnt then do
      let s ← jsGet metrics "analyzedConfidenceSum"
      let cnt2 ← jsGet metrics "analyzedCount"
      pure (jsDiv s cnt2)
    else pure (JSValue.number 0)
  let tc ← jsGet metrics "totalConversations"
  let vp ← jsGet metrics "videosProcessed"
  pure { totalConversations := tc, videosProcessed := vp, aiAccuracyScore := score }

/-- A concrete script-analysis response used to instantiate theorems. -/
def sampleScriptResponse : ScriptAnalysisResponse :=
  { emotion_label := "POSITIVE", dominant_mood := "Joy", confidence := 9/10,
    emotional_arc := [], emotion_summary := "upbeat" }

/-- A concrete PDF-analysis response used to instantiate theorems. -/
def samplePdfResponse : PdfAnalysisResponse :=
  { toScriptAnalysisResponse := sampleScriptResponse, script_preview := some "INT." }

/-- A concrete video-upload response used to instantiate theorems. -/
def sampleVideoResponse : VideoUploadResponse :=
  { language_detected := "en", confidence := some (4/5), transcript_preview := "...",
    audio_emotion := { dominant_mood := "energetic",
                       emotional_arc := [⟨0, 10, "energetic"⟩] },
    script_emotion := { dominant_mood := "neutral", emotional_arc := [] } }

/-- A transport oracle where every endpoint succeeds. -/
def sampleTransport : Transport :=
  { chat := Except.ok { response := "hello" },
    ragQuery := Except.ok "grounded answer",
    uploadPdf := Except.ok (),
    scriptAnalyze := Except.ok sampleScriptResponse,
    videoUpload := Except.ok sampleVideoResponse,
    pdfUpload := Except.ok samplePdfResponse,
    youtube := Except.ok sampleVideoResponse }

/-- The normalized result `emotionApi.analyze` produces for
`samplePdfResponse` (confidence 0.9, dominant mood Joy). -/
def samplePdfResult : AnalysisResult :=
  { dominantMood := "Joy", intensity := "High", confidence := 90,
    emotionalArc := [],
    emotions := [ { name := "Joy", value := 90, color := "#3b82f6" },
                  { name := "Secondary", value := 6, color := "#8b5cf6" },
                  { name := "Residual", value := 5, color := "#22c55e" } ] }

lemma jsRound_eq_intFloor (q : ℚ) : jsRound q = ⌊q + 1/2⌋ := by
  rw [jsRound, Rat.floor_def', Rat.floor_def]

lemma jsRound_le (q : ℚ) : (jsRound q : ℚ) ≤ q + 1/2 := by
  rw [jsRound_eq_intFloor]
  exact Int.floor_le _

lemma lt_jsRound (q : ℚ) : q - 1/2 < (jsRound q : ℚ) := by
  rw [jsRound_eq_intFloor]
  have h := Int.lt_floor_add_one (q + 1/2)
  linarith

/-- Integer bounds for `jsRound (k * 3/5)`:  `6k - 5 < 10 r ≤ 6k + 5`. -/
lemma jsRound_three_fifths_bounds (k : ℤ) :
    6 * k - 5 < 10 * jsRound ((k : ℚ) * (3/5)) ∧
    10 * jsRound ((k : ℚ) * (3/5)) ≤ 6 * k + 5 := by
  have h1 := lt_jsRound ((k : ℚ) * (3/5))
  have h2 := jsRound_le ((k : ℚ) * (3/5))
  constructor
  · have : (6 * k - 5 : ℚ) < 10 * (jsRound ((k : ℚ) * (3/5)) : ℚ) := by linarith
    exact_mod_cast this
  · have : 10 * (jsRound ((k : ℚ) * (3/5)) : ℚ) ≤ (6 * k + 5 : ℚ) := by linarith
    exact_mod_cast this

lemma jsRound_eq_of_bounds (q : ℚ) (z : ℤ) (h1 : (z : ℚ) ≤ q + 1/2)
    (h2 : q + 1/2 < (z : ℚ) + 1) : jsRound q = z := by
  rw [jsRound_eq_intFloor]
  rw [Int.floor_eq_iff]
  exact ⟨h1, by exact_mod_cast h2⟩

/-- C1: the emotion breakdown is exactly three entries, labeled with the
dominant mood, "Secondary" and "Residual", with values given by the
clamp/round formulas of the spec; each value is at least 5 and the dominant
one lies in `[20, 95]` for every rational confidence input. -/
theorem buildEmotionBreakdown_three_entries (mood : String) (c : ℚ) :
    ∃ d s t : ℤ,
      (buildEmotionBreakdown mood c).map EmotionSlice.name =
        [mood, "Secondary", "Residual"] ∧
      (buildEmotionBreakdown mood c).map EmotionSlice.value = [d, s, t] ∧
      d = max 20 (min 95 (jsRound c)) ∧
      s = max 5 (jsRound (((100 - d : ℤ) : ℚ) * (3/5))) ∧
      t = max 5 (100 - d - s) ∧
      20 ≤ d ∧ d ≤ 95 ∧ 5 ≤ s ∧ 5 ≤ t := by
  refine ⟨max 20 (min 95 (jsRound c)), _, _, rfl, rfl, rfl, rfl, rfl, ?_, ?_, ?_, ?_⟩
  · exact le_max_left _ _
  · exact max_le (by norm_num) (min_le_left _ _)
  · exact le_max_left _ _
  · exact le_max_left _ _

/-- C2: the intensity label bands are exact: High iff `c ≥ 80`, Medium iff
`60 ≤ c < 80`, Low iff `c < 60`, each inclusive on its lower bound. -/
theorem inferIntensity_bands (c : ℚ) :
    (inferIntensity c = "High" ↔ 80 ≤ c) ∧
    (inferIntensity c = "Medium" ↔ 60 ≤ c ∧ c < 80) ∧
    (inferIntensity c = "Low" ↔ c < 60) := by
  unfold inferIntensity
  split_ifs with h1 h2
  · refine ⟨⟨fun _ => h1, fun _ => rfl⟩, ⟨fun h => ?_, fun h => ?_⟩,
      ⟨fun h => ?_, fun h => ?_⟩⟩
    · exact absurd h (by decide)
    · linarith [h.2]
    · exact absurd h (by decide)
    · linarith
  · refine ⟨⟨fun h => ?_, fun h => ?_⟩, ⟨fun _ => ⟨h2, by linarith⟩, fun _ => rfl⟩,
      ⟨fun h => ?_, fun h => ?_⟩⟩
    · exact absurd h (by decide)
    · linarith
    · exact absurd h (by decide)
    · linarith
  · push_neg at h1 h2
    refine ⟨⟨fun h => ?_, fun h => ?_⟩, ⟨fun h => ?_, fun h => ?_⟩,
      ⟨fun _ => by linarith, fun _ => rfl⟩⟩
    · exact absurd h (by decide)
    · linarith
    · exact absurd h (by decide)
    · linarith [h.1]

lemma moodToValue_lookup_eq_specMoodScore (m : String) :
    (moodToValue.lookup m).getD 50 = specMoodScore m := by
  unfold moodToValue specMoodScore
  simp only [List.lookup]
  cases h1 : m == "intense" <;> cases h2 : m == "energetic" <;>
    cases h3 : m == "dramatic" <;> cases h4 : m == "dark" <;>
    cases h5 : m == "calm" <;> cases h6 : m == "neutral" <;>
    simp_all [beq_iff_eq, beq_eq_false_iff_ne]

/-- C3 counterexample: the unrecognized mood token "toString" names an
inherited `Object.prototype` member, so `moodToValue["toString"] ?? 50` keeps
the inherited function instead of defaulting: the arc `[toString]` does not
map to `[50]`. -/
theorem mapAudioArc_inherited_not_defaulted :
    mapAudioArcToIntensitySeries [⟨0, 1, "toString"⟩] =
      [ArcSample.inherited "toString"] ∧
    ArcSample.inherited "toString" ≠ ArcSample.score 50 := by
  decide

/-- C3 amended: the mapping is elementwise and total (a property read on an
object never throws); every mood token outside the `Object.prototype` member
names gets the fixed score table (intense 95, energetic 85, dramatic 80,
dark 70, calm 40, neutral 50, default 50 when unrecognized); a token naming
an inherited `Object.prototype` member leaks that member into the series
un-defaulted; the arc `[intense, unknown]` still maps to `[95, 50]`. -/
theorem mapAudioArc_elementwise_amended :
    (∀ arc : List ArcEntry,
      mapAudioArcToIntensitySeries arc =
        arc.map (fun e => moodLookupDefault e.mood)) ∧
    (∀ m, m ∉ objectPrototypeMembers →
      moodLookupDefault m = ArcSample.score (specMoodScore m)) ∧
    (∀ m ∈ objectPrototypeMembers, moodLookupDefault m = ArcSample.inherited m) ∧
    mapAudioArcToIntensitySeries [⟨0, 1, "intense"⟩, ⟨1, 2, "unknown"⟩] =
      [ArcSample.score 95, ArcSample.score 50] := by
  refine ⟨fun arc => rfl, fun m hm => ?_, by decide, by decide⟩
  have hs := moodToValue_lookup_eq_specMoodScore m
  unfold moodLookupDefault
  cases hl : moodToValue.lookup m with
  | some v =>
    rw [hl] at hs
    simp only [Option.getD_some] at hs
    rw [hs]
  | none =>
    rw [hl] at hs
    simp only [Option.getD_none] at hs
    rw [if_neg hm, ← hs]

/-- Witness for amended C3 at a plain unknown token and at an inherited
member name. -/
theorem mapAudioArc_elementwise_amended_witness :
    moodLookupDefault "unknown" = ArcSample.score (specMoodScore "unknown") ∧
    moodLookupDefault "toString" = ArcSample.inherited "toString" :=
  ⟨mapAudioArc_elementwise_amended.2.1 "unknown" (by decide),
   mapAudioArc_elementwise_amended.2.2.1 "toString" (by decide)⟩

/-- C10 (implicit): the three synthesized percentages sum to at least 100 and
at most 105; the sum is exactly 100 whenever `100 - dominant - secondary ≥ 5`,
and any excess over 100 occurs only when that residual formula dips below 5,
which forces the dominant value up near its 95 clamp (`dominant ≥ 89`). -/
theorem buildEmotionBreakdown_sum_bounds (mood : String) (c : ℚ) (d s t : ℤ)
    (h : (buildEmotionBreakdown mood c).map EmotionSlice.value = [d, s, t]) :
    100 ≤ d + s + t ∧ d + s + t ≤ 105 ∧
    (5 ≤ 100 - d - s → d + s + t = 100) ∧
    (100 < d + s + t → 100 - d - s < 5 ∧ 89 ≤ d) := by
  unfold buildEmotionBreakdown at h
  simp only [List.map_cons, List.map_nil, List.cons.injEq, and_true] at h
  obtain ⟨hd, hs, ht⟩ := h
  subst hd
  subst hs
  subst ht
  have h20 : 20 ≤ max 20 (min 95 (jsRound c)) := le_max_left _ _
  have h95 : max 20 (min 95 (jsRound c)) ≤ 95 :=
    max_le (by norm_num) (min_le_left _ _)
  obtain ⟨hb1, hb2⟩ :=
    jsRound_three_fifths_bounds (100 - max 20 (min 95 (jsRound c)))
  rcases max_cases 5
      (jsRound (((100 - max 20 (min 95 (jsRound c)) : ℤ) : ℚ) * (3/5))) with
    ⟨he1, hle1⟩ | ⟨he1, hlt1⟩ <;>
  rcases max_cases 5
      (100 - max 20 (min 95 (jsRound c)) -
        max 5 (jsRound (((100 - max 20 (min 95 (jsRound c)) : ℤ) : ℚ) * (3/5)))) with
    ⟨he2, hle2⟩ | ⟨he2, hlt2⟩ <;>
  omega

/-- C5: the accuracy score is the confidence sum divided by the sample count
when the count is positive and 0 otherwise; from the empty store, one
conversation event gives `totalConversations = 1`, and two analysis samples
with confidences 80 and 60 give `aiAccuracyScore = 70`. -/
theorem getDashboardMetrics_accuracy :
    (∀ m : StoredMetrics,
      (getDashboardMetrics m).aiAccuracyScore =
        if 0 < m.analyzedCount then
          (m.analyzedConfidenceSum : ℚ) / (m.analyzedCount : ℚ)
        else 0) ∧
    (getDashboardMetrics (incrementConversation emptyStoredMetrics)).totalConversations = 1 ∧
    (getDashboardMetrics
        (addAnalysisConfidence 60 (addAnalysisConfidence 80 emptyStoredMetrics))).aiAccuracyScore = 70 := by
  refine ⟨fun m => ?_, rfl, ?_⟩
  · by_cases h : m.analyzedCount = 0 <;>
      simp [getDashboardMetrics, h, Nat.pos_iff_ne_zero]
  · norm_num [getDashboardMetrics, addAnalysisConfidence, emptyStoredMetrics]

/-- C4: for a script file whose trimmed text is empty, `analyze` fails with
the validation error before any network call is attempted, and every metrics
field is unchanged. -/
theorem script_empty_no_network (f : FileData) (t : Transport)
    (m : StoredMetrics) (h : jsTrim f.text = "") :
    (runAnalysis (AnalysisRequest.script f) t m).calls = [] ∧
    (runAnalysis (AnalysisRequest.script f) t m).result =
      Except.error "Script file is empty." ∧
    (runAnalysis (AnalysisRequest.script f) t m).metrics = m := by
  simp [runAnalysis, emotionApi.analyze, h]

/-- Witness for C4 at the whitespace-only script "   ". -/
theorem script_empty_no_network_witness :
    (runAnalysis (AnalysisRequest.script { text := "   " }) sampleTransport
        emptyStoredMetrics).calls = [] ∧
    (runAnalysis (AnalysisRequest.script { text := "   " }) sampleTransport
        emptyStoredMetrics).result = Except.error "Script file is empty." ∧
    (runAnalysis (AnalysisRequest.script { text := "   " }) sampleTransport
        emptyStoredMetrics).metrics = emptyStoredMetrics :=
  script_empty_no_network { text := "   " } sampleTransport emptyStoredMetrics
    (by decide)

/-- C9 counterexample: stored text "null" parses successfully to JS `null`;
`readMetrics` returns it unchecked (the `as StoredMetrics` cast checks
nothing) and the first property access inside `getDashboardMetrics` throws a
TypeError, so the read accessor is not total on corrupt records. -/
theorem getDashboardMetricsJS_throws_on_parsed_null :
    getDashboardMetricsJS (RawCell.parsed JSValue.null) =
      Except.error "TypeError: cannot read properties of null" := rfl

/-- C9 amended: when the durable record is missing or its text is
unparseable, `getDashboardMetrics` does not throw and returns the all-zero
view; a record that parses to a value of the wrong shape is not protected. -/
theorem getDashboardMetricsJS_zero_fallback (cell : RawCell)
    (h : cell = RawCell.missing ∨ cell = RawCell.unparseable) :
    getDashboardMetricsJS cell =
      Except.ok { totalConversations := JSValue.number 0,
                  videosProcessed := JSValue.number 0,
                  aiAccuracyScore := JSValue.number 0 } := by
  rcases h with rfl | rfl <;> rfl

/-- Witness for amended C9 at the missing record. -/
theorem getDashboardMetricsJS_zero_fallback_witness :
    getDashboardMetricsJS RawCell.missing =
      Except.ok { totalConversations := JSValue.number 0,
                  videosProcessed := JSValue.number 0,
                  aiAccuracyScore := JSValue.number 0 } :=
  getDashboardMetricsJS_zero_fallback RawCell.missing (Or.inl rfl)

lemma chatPath_local_credential_none (msg : String) (cm : ChatMode)
    (rm : ResponseMode) (key : String) (pf : Option FileData)
    (t : Transport) (m : StoredMetrics) :
    ∀ call ∈ (chatbotSendMessage
        (handleSendMessagePayload msg cm rm ChatProvider.«local» key pf) t m).calls,
      call.credential = none := by
  intro call hc
  cases cm with
  | general =>
    rcases pf with _ | f <;>
      rcases ht : t.chat with e | d <;>
        simp [chatbotSendMessage, handleSendMessagePayload, sendChat, ht] at hc <;>
        subst hc <;> rfl
  | pdf =>
    rcases pf with _ | f
    · rcases ht : t.ragQuery with e | a <;>
        simp [chatbotSendMessage, handleSendMessagePayload, sendChat, ht] at hc <;>
        subst hc <;> rfl
    · rcases hu : t.uploadPdf with e | u
      · simp [chatbotSendMessage, handleSendMessagePayload, hu] at hc
        subst hc
        rfl
      · rcases ht : t.ragQuery with e | a <;>
          simp [chatbotSendMessage, handleSendMessagePayload, sendChat, hu, ht] at hc <;>
          rcases hc with rfl | rfl <;> rfl

lemma sendChat_call_credential (payload : ChatPayload) (t : Transport)
    (m : StoredMetrics) :
    ∀ call ∈ (sendChat payload t m).calls, call.credential = payload.api_key := by
  intro call hc
  cases hm : payload.mode with
  | general =>
    rcases ht : t.chat with e | d <;>
      simp [sendChat, hm, ht] at hc <;> subst hc <;> rfl
  | pdf =>
    rcases ht : t.ragQuery with e | a <;>
      simp [sendChat, hm, ht] at hc <;> subst hc <;> rfl

/-- C7: along the UI chat path, in both the general and the contextual RAG
branch, the request body carries `api_key` only when the selected provider is
`external`; with the `local` provider no credential reaches any request; and
for every `sendChat` payload satisfying the ChatRequest invariant (a
credential is present only with the external provider), the issued body
carries a credential only when the provider is external. -/
theorem chat_credential_only_external (msg : String) (cm : ChatMode)
    (rm : ResponseMode) (p : ChatProvider) (key : String) (pf : Option FileData)
    (t : Transport) (m : StoredMetrics) :
    (∀ call ∈ (chatbotSendMessage
        (handleSendMessagePayload msg cm rm p key pf) t m).calls,
      ∀ k, call.credential = some k → p = ChatProvider.external) ∧
    (p = ChatProvider.«local» →
      ∀ call ∈ (chatbotSendMessage
          (handleSendMessagePayload msg cm rm p key pf) t m).calls,
        call.credential = none) ∧
    (∀ payload : ChatPayload,
      (payload.provider = ChatProvider.«local» → payload.api_key = none) →
      ∀ call ∈ (sendChat payload t m).calls, ∀ k,
        call.credential = some k → payload.provider = ChatProvider.external) := by
  refine ⟨?_, ?_, ?_⟩
  · intro call hc k hk
    cases p with
    | «local» =>
      have hnone := chatPath_local_credential_none msg cm rm key pf t m call hc
      rw [hnone] at hk
      exact Option.noConfusion hk
    | external => rfl
  · intro hp
    subst hp
    exact chatPath_local_credential_none msg cm rm key pf t m
  · intro payload hinv call hc k hk
    cases hp : payload.provider with
    | «local» =>
      rw [sendChat_call_credential payload t m call hc, hinv hp] at hk
      exact Option.noConfusion hk
    | external => rfl

/-- Witness for C7: with the local provider and a key sitting in UI state, the
issued `/chat` body carries no credential. -/
theorem chat_credential_only_external_witness :
    NetCall.credential
      (NetCall.chat { message := "hi", llm_type := "local", api_key := none }) = none :=
  (chat_credential_only_external "hi" ChatMode.general ResponseMode.strict
      ChatProvider.«local» "secret" none sampleTransport emptyStoredMetrics).2.1 rfl
    (NetCall.chat { message := "hi", llm_type := "local", api_key := none })
    (by decide)

/-- C8: in contextual (`pdf`) mode with an attached document, the ingestion
upload is issued strictly before the chat call; an upload failure aborts the
exchange with no chat call and no metric change; `totalConversations` grows by
exactly one precisely when the chat result is a success, and every failure
leaves the metrics untouched. -/
theorem contextual_upload_before_chat (msg : String) (rm : ResponseMode)
    (p : ChatProvider) (key : Option String) (f : FileData)
    (t : Transport) (m : StoredMetrics) :
    (∀ e, t.uploadPdf = Except.error e →
      (chatbotSendMessage ⟨msg, ChatMode.pdf, rm, p, key, some f⟩ t m).calls =
        [NetCall.uploadPdf] ∧
      (chatbotSendMessage ⟨msg, ChatMode.pdf, rm, p, key, some f⟩ t m).result =
        Except.error e ∧
      (chatbotSendMessage ⟨msg, ChatMode.pdf, rm, p, key, some f⟩ t m).metrics = m) ∧
    (t.uploadPdf = Except.ok () →
      (chatbotSendMessage ⟨msg, ChatMode.pdf, rm, p, key, some f⟩ t m).calls =
        [NetCall.uploadPdf,
         NetCall.ragQuery { question := msg, mode := rm,
                            llm_type := normalizeProvider p, api_key := key }]) ∧
    (∀ r, (chatbotSendMessage ⟨msg, ChatMode.pdf, rm, p, key, some f⟩ t m).result =
        Except.ok r →
      (chatbotSendMessage ⟨msg, ChatMode.pdf, rm, p, key, some f⟩ t m).metrics =
        incrementConversation m) ∧
    (∀ e, (chatbotSendMessage ⟨msg, ChatMode.pdf, rm, p, key, some f⟩ t m).result =
        Except.error e →
      (chatbotSendMessage ⟨msg, ChatMode.pdf, rm, p, key, some f⟩ t m).metrics = m) := by
  refine ⟨fun e he => by simp [chatbotSendMessage, he], fun hok => ?_,
    fun r hrr => ?_, fun e he => ?_⟩
  · rcases hr : t.ragQuery with e1 | a <;>
      simp [chatbotSendMessage, sendChat, hok, hr]
  · rcases hu : t.uploadPdf with e0 | u
    · simp [chatbotSendMessage, hu] at hrr
    · rcases hr : t.ragQuery with e1 | a
      · simp [chatbotSendMessage, sendChat, hu, hr] at hrr
      · simp [chatbotSendMessage, sendChat, hu, hr]
  · rcases hu : t.uploadPdf with e0 | u
    · simp [chatbotSendMessage, hu]
    · rcases hr : t.ragQuery with e1 | a
      · simp [chatbotSendMessage, sendChat, hu, hr]
      · simp [chatbotSendMessage, sendChat, hu, hr] at he

/-- Witness for C8: with a transport where both the upload and the RAG call
succeed, the calls are ordered upload-then-chat and exactly one conversation
is recorded. -/
theorem contextual_upload_before_chat_witness :
    (chatbotSendMessage
        ⟨"q", ChatMode.pdf, ResponseMode.strict, ChatProvider.«local», none, some ⟨"ctx"⟩⟩
        sampleTransport emptyStoredMetrics).calls =
      [NetCall.uploadPdf,
       NetCall.ragQuery { question := "q", mode := ResponseMode.strict,
                          llm_type := normalizeProvider ChatProvider.«local»,
                          api_key := none }] ∧
    (chatbotSendMessage
        ⟨"q", ChatMode.pdf, ResponseMode.strict, ChatProvider.«local», none, some ⟨"ctx"⟩⟩
        sampleTransport emptyStoredMetrics).metrics =
      incrementConversation emptyStoredMetrics :=
  ⟨(contextual_upload_before_chat "q" ResponseMode.strict ChatProvider.«local» none ⟨"ctx"⟩
      sampleTransport emptyStoredMetrics).2.1 rfl,
   (contextual_upload_before_chat "q" ResponseMode.strict ChatProvider.«local» none ⟨"ctx"⟩
      sampleTransport emptyStoredMetrics).2.2.1 { response := "grounded answer" } rfl⟩

/-- C6: on every successful analysis call, `videosProcessed` grows by one when
and only when the request kind is video or youtubeLink, the sample count
always grows by one with the resulting confidence percentage added to the
running sum, and `totalConversations` is untouched. -/
theorem analysis_success_metric_effects (req : AnalysisRequest) (t : Transport)
    (m : StoredMetrics) (r : AnalysisResult)
    (h : (runAnalysis req t m).result = Except.ok r) :
    (runAnalysis req t m).metrics =
      { totalConversations := m.totalConversations,
        videosProcessed := m.videosProcessed +
          (if req.isVideoKind then 1 else 0),
        analyzedCount := m.analyzedCount + 1,
        analyzedConfidenceSum := m.analyzedConfidenceSum + r.confidence } := by
  cases req with
  | video f =>
    rcases hv : t.videoUpload with e | data
    · simp [runAnalysis, emotionApi.analyze, hv] at h
    · simp only [runAnalysis, emotionApi.analyze, hv, Except.ok.injEq] at h
      subst h
      simp [runAnalysis, emotionApi.analyze, hv, addAnalysisConfidence,
        incrementVideos, AnalysisRequest.isVideoKind]
  | pdf f =>
    rcases hv : t.pdfUpload with e | data
    · simp [runAnalysis, emotionApi.analyze, hv] at h
    · simp only [runAnalysis, emotionApi.analyze, hv, Except.ok.injEq] at h
      subst h
      simp [runAnalysis, emotionApi.analyze, hv, addAnalysisConfidence,
        AnalysisRequest.isVideoKind]
  | script f =>
    by_cases he : jsTrim f.text = ""
    · simp [runAnalysis, emotionApi.analyze, he] at h
    · rcases hv : t.scriptAnalyze with e | data
      · simp [runAnalysis, emotionApi.analyze, he, hv] at h
      · simp only [runAnalysis, emotionApi.analyze, if_neg he, hv,
          Except.ok.injEq] at h
        subst h
        simp [runAnalysis, emotionApi.analyze, if_neg he, hv,
          addAnalysisConfidence, AnalysisRequest.isVideoKind]
  | youtubeLink u =>
    rcases hv : t.youtube with e | data
    · simp [runAnalysis, emotionApi.analyzeYouTube, hv] at h
    · simp only [runAnalysis, emotionApi.analyzeYouTube, hv, Except.ok.injEq] at h
      subst h
      simp [runAnalysis, emotionApi.analyzeYouTube, hv, addAnalysisConfidence,
        incrementVideos, AnalysisRequest.isVideoKind]

lemma jsRound_intCast (z : ℤ) : jsRound ((z : ℚ)) = z := by
  refine jsRound_eq_of_bounds _ _ ?_ ?_ <;> norm_num

lemma jsRound_pdf_conf : jsRound ((9/10 : ℚ) * 100) = 90 := by
  refine jsRound_eq_of_bounds _ _ ?_ ?_ <;> norm_num

lemma inferIntensity_ninety : inferIntensity ((90 : ℤ) : ℚ) = "High" := by
  norm_num [inferIntensity]

lemma buildEmotionBreakdown_joy_ninety :
    buildEmotionBreakdown "Joy" ((90 : ℤ) : ℚ) = samplePdfResult.emotions := by
  have h1 : jsRound ((90 : ℤ) : ℚ) = 90 := jsRound_intCast 90
  have h3 : max 20 (min 95 (90 : ℤ)) = 90 := by decide
  have h2 : jsRound (((100 - 90 : ℤ) : ℚ) * (3/5)) = 6 := by
    refine jsRound_eq_of_bounds _ _ ?_ ?_ <;> norm_num
  simp only [buildEmotionBreakdown, h1, h3, h2, samplePdfResult]
  decide

lemma samplePdf_result_eq :
    (runAnalysis (AnalysisRequest.pdf { text := "doc" }) sampleTransport
        emptyStoredMetrics).result = Except.ok samplePdfResult := by
  simp only [runAnalysis, emotionApi.analyze, sampleTransport, samplePdfResponse,
    sampleScriptResponse, jsRound_pdf_conf, inferIntensity_ninety,
    buildEmotionBreakdown_joy_ninety, List.map_nil, Except.ok.injEq]
  simp [samplePdfResult]

/-- Witness for C6: a successful PDF analysis (confidence 0.9) leaves the
video counter alone and adds one sample with confidence 90. -/
theorem analysis_success_metric_effects_witness :
    (runAnalysis (AnalysisRequest.pdf { text := "doc" }) sampleTransport
        emptyStoredMetrics).metrics =
      { totalConversations := emptyStoredMetrics.totalConversations,
        videosProcessed := emptyStoredMetrics.videosProcessed +
          (if (AnalysisRequest.pdf { text := "doc" }).isVideoKind then 1 else 0),
        analyzedCount := emptyStoredMetrics.analyzedCount + 1,
        analyzedConfidenceSum := emptyStoredMetrics.analyzedConfidenceSum +
          samplePdfResult.confidence } :=
  analysis_success_metric_effects (AnalysisRequest.pdf { text := "doc" })
    sampleTransport emptyStoredMetrics samplePdfResult samplePdf_result_eq

/-- Witness for C10 at confidence 90: the values are 90, 6, 5, whose sum 101
exceeds 100 exactly because the residual formula fell below 5 with the
dominant value at 90. -/
theorem buildEmotionBreakdown_sum_bounds_witness :
    100 ≤ (90 : ℤ) + 6 + 5 ∧ (90 : ℤ) + 6 + 5 ≤ 105 ∧
    (5 ≤ 100 - (90 : ℤ) - 6 → (90 : ℤ) + 6 + 5 = 100) ∧
    (100 < (90 : ℤ) + 6 + 5 → 100 - (90 : ℤ) - 6 < 5 ∧ 89 ≤ (90 : ℤ)) :=
  buildEmotionBreakdown_sum_bounds "Joy" ((90 : ℤ) : ℚ) 90 6 5
    (by rw [buildEmotionBreakdown_joy_ninety]; decide)
